import Mathlib

/-
Shallow embedding of the Plex SSE event-source client
(src/apps/server/src/services/mediaServer/plex/eventSource.ts).

The client is a single-threaded, event-driven state machine.  Every
operation of the class is embedded as a pure function from the client's
field record to an updated record together with the list of events the
operation emits, in emission order.  Timer callbacks (reconnect,
heartbeat, connection timeout) are embedded as separate functions
modelling the callback bodies; timer handles are modelled as Option
fields holding the scheduled deadline (heartbeat and connection timers,
in milliseconds of absolute time) or the computed delay (reconnect
timer).  Wall-clock instants are natural numbers of milliseconds;
delays and jitter are rationals, mirroring the floating-point
arithmetic of Math.pow / Math.random without rounding.
-/

namespace Tracearr

/-- Connection states (SSEConnectionState from the shared package). -/
inductive SSEConnectionState
  | disconnected
  | connecting
  | connected
  | reconnecting
  | fallback
deriving DecidableEq, Repr

/-- Modelled from the spec: the SSE_CONFIG constant imported from the
shared workspace package, whose source file is not in the repository
snapshot.  The spec names the roles of the constants (initial retry
delay, retry multiplier, maximum retry delay, maximum retry count,
heartbeat window) but not their numeric values, so the configuration is
a parameter of every operation that reads it. -/
structure SSEConfig where
  MAX_RETRIES : Nat
  INITIAL_RETRY_DELAY_MS : ℚ
  RETRY_MULTIPLIER : ℚ
  MAX_RETRY_DELAY_MS : ℚ
  HEARTBEAT_TIMEOUT_MS : Nat
deriving DecidableEq, Repr

/-- A play-session notification.  The client only ever reads the state
field; sessionKey stands for the opaque passthrough payload. -/
structure PlexPlaySessionNotification where
  sessionKey : String
  state : String
deriving DecidableEq, Repr

/-- Events emitted by the client (the PlexEventSourceEvents interface). -/
inductive Emitted
  | sessionPlaying (n : PlexPlaySessionNotification)
  | sessionPaused (n : PlexPlaySessionNotification)
  | sessionStopped (n : PlexPlaySessionNotification)
  | sessionProgress (n : PlexPlaySessionNotification)
  | connectionState (s : SSEConnectionState)
  | connectionError (message : String)
deriving DecidableEq, Repr

/-- The mutable fields of a PlexEventSource instance.  eventSource models
a non-null transport handle, listenersAttached the four tracked listener
references, and constructions is a ghost counter of transport
constructions (used to state that no new transport is built). -/
structure Client where
  serverId : String
  serverName : String
  state : SSEConnectionState := SSEConnectionState.disconnected
  reconnectAttempts : Nat := 0
  reconnectTimer : Option ℚ := none
  heartbeatTimer : Option Nat := none
  connectionTimer : Option Nat := none
  lastEventTime : Option Nat := none
  connectedAt : Option Nat := none
  lastError : Option String := none
  eventSource : Bool := false
  listenersAttached : Bool := false
  constructions : Nat := 0
deriving DecidableEq, Repr

/-- getState. -/
def getState (c : Client) : SSEConnectionState :=
  c.state

/-- The record returned by getStatus. -/
structure Status where
  serverId : String
  serverName : String
  state : SSEConnectionState
  connectedAt : Option Nat
  lastEventAt : Option Nat
  reconnectAttempts : Nat
  error : Option String
deriving DecidableEq, Repr

/-- getStatus.  lastError stores the message of the stored Error, so the
error field is that message directly. -/
def getStatus (c : Client) : Status :=
  { serverId := c.serverId
    serverName := c.serverName
    state := c.state
    connectedAt := c.connectedAt
    lastEventAt := c.lastEventTime
    reconnectAttempts := c.reconnectAttempts
    error := c.lastError }

/-- setState: assign and emit only when the new state differs. -/
def setState (s : SSEConnectionState) (c : Client) : Client × List Emitted :=
  if c.state ≠ s then ({ c with state := s }, [Emitted.connectionState s])
  else (c, [])

/-- clearConnectionTimeout. -/
def clearConnectionTimeout (c : Client) : Client :=
  { c with connectionTimer := none }

/-- clearTimers: cancel the reconnect and heartbeat timers, then
clearConnectionTimeout. -/
def clearTimers (c : Client) : Client :=
  clearConnectionTimeout { c with reconnectTimer := none, heartbeatTimer := none }

/-- cleanupEventSource: early return when the handle is null, otherwise
remove the tracked listeners, close, and null out handle and listener
references. -/
def cleanupEventSource (c : Client) : Client :=
  if c.eventSource then { c with eventSource := false, listenersAttached := false }
  else c

/-- startConnectionTimeout: re-arm the connection timer for
HEARTBEAT_TIMEOUT_MS from now. -/
def startConnectionTimeout (cfg : SSEConfig) (now : Nat) (c : Client) : Client :=
  { clearConnectionTimeout c with connectionTimer := some (now + cfg.HEARTBEAT_TIMEOUT_MS) }

/-- resetHeartbeatMonitor: clear any pending heartbeat timer and arm a
fresh one for HEARTBEAT_TIMEOUT_MS from now. -/
def resetHeartbeatMonitor (cfg : SSEConfig) (now : Nat) (c : Client) : Client :=
  { c with heartbeatTimer := some (now + cfg.HEARTBEAT_TIMEOUT_MS) }

/-- startHeartbeatMonitor delegates to resetHeartbeatMonitor. -/
def startHeartbeatMonitor (cfg : SSEConfig) (now : Nat) (c : Client) : Client :=
  resetHeartbeatMonitor cfg now c

/-- The raw value reaching handleError: a JS Error carrying a message, a
plain object possibly carrying message and status properties, or any
other value. -/
inductive ErrValue
  | jsError (message : String)
  | obj (message : Option String) (status : Option Int)
  | other
deriving DecidableEq, Repr

/-- The human-readable message handleError derives from the raw error
value, defaulting to the fixed text and appending a status code when one
is present on an object-shaped error. -/
def errorMessage : ErrValue → String
  | ErrValue.jsError m => m
  | ErrValue.obj m st =>
      let base := match m with
        | some s => s
        | none => "Connection error"
      match st with
      | some code => base ++ " (status: " ++ toString code ++ ")"
      | none => base
  | ErrValue.other => "Connection error"

/-- The capped exponential base delay for the n-th reconnect attempt:
min(INITIAL_RETRY_DELAY_MS * RETRY_MULTIPLIER ^ (n - 1), MAX_RETRY_DELAY_MS). -/
def baseDelay (cfg : SSEConfig) (n : Nat) : ℚ :=
  min (cfg.INITIAL_RETRY_DELAY_MS * cfg.RETRY_MULTIPLIER ^ (n - 1)) cfg.MAX_RETRY_DELAY_MS

/-- The scheduled delay for the n-th attempt: base delay plus the jitter
drawn as Math.random() * 1000. -/
def fullDelay (cfg : SSEConfig) (j : ℚ) (n : Nat) : ℚ :=
  baseDelay cfg n + j

/-- scheduleReconnect: when reconnectAttempts has reached MAX_RETRIES,
transition to fallback and schedule nothing; otherwise transition to
reconnecting, increment the counter, and schedule the reconnect timer
with the jittered backoff delay of the incremented attempt count.
j is the jitter drawn for this invocation, in [0, 1000). -/
def scheduleReconnect (cfg : SSEConfig) (j : ℚ) (c : Client) : Client × List Emitted :=
  if c.reconnectAttempts ≥ cfg.MAX_RETRIES then
    setState SSEConnectionState.fallback c
  else
    let p := setState SSEConnectionState.reconnecting c
    let c1 := { p.1 with reconnectAttempts := p.1.reconnectAttempts + 1 }
    ({ c1 with reconnectTimer := some (fullDelay cfg j c1.reconnectAttempts) }, p.2)

/-- handleError: clear timers, derive and store the error message, emit
connection:error, tear down the transport, and schedule a reconnect. -/
def handleError (cfg : SSEConfig) (j : ℚ) (e : ErrValue) (c : Client) : Client × List Emitted :=
  let c1 := clearTimers c
  let msg := errorMessage e
  let c2 := { c1 with lastError := some msg }
  let c3 := cleanupEventSource c2
  let p := scheduleReconnect cfg j c3
  (p.1, Emitted.connectionError msg :: p.2)

/-- The value a call to the async connect method settles to: the client
fields after the synchronous body ran, the events emitted during it, and
the rejection message when the returned promise rejects. -/
structure CallResult where
  client : Client
  events : List Emitted
  rejected : Option String
deriving DecidableEq, Repr

/-- connect.  moduleLoaded says whether the lazily imported transport
module is already cached; importOk whether the dynamic import, when
attempted, succeeds (the import sits before the try/catch, so its
failure rejects the returned promise); constructOk whether the body of
the try block (header building, transport construction, listener
registration) runs without throwing.  A throw inside the try block is
caught and routed to handleError with jitter j; now is the wall-clock
instant of the call. -/
def connect (cfg : SSEConfig) (j : ℚ) (now : Nat)
    (moduleLoaded importOk constructOk : Bool) (c : Client) : CallResult :=
  if moduleLoaded = false ∧ importOk = false then
    { client := c, events := [], rejected := some "failed to load eventsource module" }
  else if c.state = SSEConnectionState.connected ∨ c.state = SSEConnectionState.connecting then
    { client := c, events := [], rejected := none }
  else
    let p := setState SSEConnectionState.connecting c
    let c1 := clearTimers p.1
    if constructOk then
      let c2 := { c1 with eventSource := true, constructions := c1.constructions + 1 }
      let c3 := startConnectionTimeout cfg now c2
      let c4 := { c3 with listenersAttached := true }
      { client := c4, events := p.2, rejected := none }
    else
      let q := handleError cfg j (ErrValue.jsError "construction failed") c1
      { client := q.1, events := p.2 ++ q.2, rejected := none }

/-- The onopen callback: ignore a stale open when the state has moved
past connecting, otherwise clear the connection timer, transition to
connected, record the connect time, reset the attempt counter and last
error, and arm the heartbeat monitor. -/
def fireOnOpen (cfg : SSEConfig) (now : Nat) (c : Client) : Client × List Emitted :=
  if c.state ≠ SSEConnectionState.connecting then (c, [])
  else
    let c1 := clearConnectionTimeout c
    let p := setState SSEConnectionState.connected c1
    let c2 := { p.1 with connectedAt := some now, reconnectAttempts := 0, lastError := none }
    (startHeartbeatMonitor cfg now c2, p.2)

/-- disconnect: clear all timers, tear down the transport, transition to
disconnected, clear the connect time. -/
def disconnect (c : Client) : Client × List Emitted :=
  let c1 := clearTimers c
  let c2 := cleanupEventSource c1
  let p := setState SSEConnectionState.disconnected c2
  ({ p.1 with connectedAt := none }, p.2)

/-- A PlaySessionStateNotification property on the container: the wire
value is either a single object or an array of objects. -/
inductive PSSNField
  | one (n : PlexPlaySessionNotification)
  | many (ns : List PlexPlaySessionNotification)
deriving DecidableEq, Repr

/-- Array.isArray normalization: a single object becomes a one-element
array, an array is kept as is. -/
def PSSNField.toList : PSSNField → List PlexPlaySessionNotification
  | PSSNField.one n => [n]
  | PSSNField.many ns => ns

/-- The wrapped NotificationContainer shape. -/
structure NotificationContainer where
  type : String
  PlaySessionStateNotification : Option PSSNField
deriving DecidableEq, Repr

/-- A successfully parsed message body: the two optional properties the
handler inspects (a property is absent when the field is none). -/
structure ParsedData where
  PlaySessionStateNotification : Option PlexPlaySessionNotification
  NotificationContainer : Option NotificationContainer
deriving DecidableEq, Repr

/-- The body of an incoming SSE message: absent or empty data, data that
JSON.parse throws on, or a successfully parsed object (the JSON parser
itself is external to the client and not modelled). -/
inductive MessageData
  | empty
  | malformed (raw : String)
  | parsed (d : ParsedData)
deriving DecidableEq, Repr

/-- handlePlaySessionNotification: the switch on notification.state; the
container-level event type argument is ignored (it is unreliable, often
constantly playing).  buffering is treated as playing; any other state
falls through the switch and emits nothing. -/
def handlePlaySessionNotification (n : PlexPlaySessionNotification)
    (_eventType : String) : List Emitted :=
  if n.state = "playing" then [Emitted.sessionPlaying n]
  else if n.state = "paused" then [Emitted.sessionPaused n]
  else if n.state = "stopped" then [Emitted.sessionStopped n]
  else if n.state = "buffering" then [Emitted.sessionPlaying n]
  else []

/-- handleMessage: record the event time and re-arm the heartbeat first,
then return on empty data; a JSON.parse throw is caught and only logged;
a direct PlaySessionStateNotification (without a NotificationContainer
sibling) is handled once with literal event type playing; otherwise the
optional container's notifications are normalized to an array and
handled in array order with the container's type. -/
def handleMessage (cfg : SSEConfig) (now : Nat) (msg : MessageData)
    (c : Client) : Client × List Emitted :=
  let c1 := { c with lastEventTime := some now }
  let c2 := resetHeartbeatMonitor cfg now c1
  match msg with
  | MessageData.empty => (c2, [])
  | MessageData.malformed _ => (c2, [])
  | MessageData.parsed d =>
    match d.PlaySessionStateNotification, d.NotificationContainer with
    | some n, none => (c2, handlePlaySessionNotification n "playing")
    | _, some container =>
      match container.PlaySessionStateNotification with
      | some f =>
          (c2, (PSSNField.toList f).flatMap
            (fun n => handlePlaySessionNotification n container.type))
      | none => (c2, [])
    | none, none => (c2, [])

/-- The ping listener: receipt of a keepalive only re-arms the heartbeat
monitor. -/
def pingStep (cfg : SSEConfig) (now : Nat) (c : Client) : Client :=
  resetHeartbeatMonitor cfg now c

/-- The heartbeat timer callback: a no-op when disconnected, otherwise a
synthesized error handled like a transport error. -/
def fireHeartbeatTimer (cfg : SSEConfig) (j : ℚ) (c : Client) : Client × List Emitted :=
  if c.state = SSEConnectionState.disconnected then (c, [])
  else handleError cfg j (ErrValue.jsError "Heartbeat timeout") c

/-- The connection timer callback: a no-op when disconnected, otherwise a
synthesized error handled like a transport error. -/
def fireConnectionTimer (cfg : SSEConfig) (j : ℚ) (c : Client) : Client × List Emitted :=
  if c.state = SSEConnectionState.disconnected then (c, [])
  else handleError cfg j (ErrValue.jsError "Connection timeout") c

/-- The reconnect timer callback: abort when the state has become
disconnected, otherwise call connect. -/
def fireReconnectTimer (cfg : SSEConfig) (j : ℚ) (now : Nat)
    (moduleLoaded importOk constructOk : Bool) (c : Client) : CallResult :=
  if c.state = SSEConnectionState.disconnected then
    { client := c, events := [], rejected := none }
  else connect cfg j now moduleLoaded importOk constructOk c

/-- k consecutive invocations of the error path (handleError) with a
fixed raw error and per-invocation jitter j, collecting emissions in
order. -/
def errorSteps (cfg : SSEConfig) (j : ℚ) (e : ErrValue) : Nat → Client → Client × List Emitted
  | 0, c => (c, [])
  | Nat.succ k, c =>
    let p := errorSteps cfg j e k c
    let q := handleError cfg j e p.1
    (q.1, p.2 ++ q.2)

/-- Deliver keepalive pings at the given instants, in time order, under
the single-threaded timer semantics: before a ping at instant t is
processed, the armed heartbeat timer fires exactly when its deadline is
at most t (firing consumes the handle); the ping then re-arms the
monitor. -/
def runPings (cfg : SSEConfig) (j : ℚ) : List Nat → Client → Client × List Emitted
  | [], c => (c, [])
  | t :: rest, c =>
    let p :=
      match c.heartbeatTimer with
      | some d =>
          if d ≤ t then fireHeartbeatTimer cfg j { c with heartbeatTimer := none }
          else (c, [])
      | none => (c, [])
    let c2 := pingStep cfg t p.1
    let q := runPings cfg j rest c2
    (q.1, p.2 ++ q.2)

/-- Every ping arrives strictly before the heartbeat deadline standing
when it is processed: the first before d, and each later one within
HEARTBEAT_TIMEOUT_MS of its predecessor's re-arm. -/
def gapsOk (T : Nat) : Nat → List Nat → Bool
  | _, [] => true
  | d, t :: rest => decide (t < d) && gapsOk T (t + T) rest

/-- The heartbeat deadline standing after a ping trace. -/
def finalDeadline (T : Nat) : Nat → List Nat → Nat
  | d, [] => d
  | _, t :: rest => finalDeadline T (t + T) rest

/-- A concrete configuration used by witnesses and counterexamples. -/
def cfg0 : SSEConfig :=
  { MAX_RETRIES := 3
    INITIAL_RETRY_DELAY_MS := 1000
    RETRY_MULTIPLIER := 2
    MAX_RETRY_DELAY_MS := 30000
    HEARTBEAT_TIMEOUT_MS := 30000 }

/-- A concrete configuration with a retry cap high enough that the
backoff reaches the maximum delay while reconnects are still being
scheduled. -/
def cfg1 : SSEConfig :=
  { MAX_RETRIES := 20
    INITIAL_RETRY_DELAY_MS := 1000
    RETRY_MULTIPLIER := 2
    MAX_RETRY_DELAY_MS := 30000
    HEARTBEAT_TIMEOUT_MS := 30000 }

/-- A concrete connected client. -/
def c0 : Client :=
  { serverId := "srv-1", serverName := "plex-main", state := SSEConnectionState.connected }

/-- A concrete disconnected client. -/
def cDisc : Client :=
  { serverId := "srv-1", serverName := "plex-main" }

/-- C7: processing a message whose body is unparsable JSON only records
the event time and re-arms the heartbeat; it emits no session event and
no error event, and leaves the connection state unchanged. -/
theorem C7_malformed_message_harmless (cfg : SSEConfig) (now : Nat) (raw : String) (c : Client) :
    handleMessage cfg now (MessageData.malformed raw) c
      = ({ c with lastEventTime := some now,
                  heartbeatTimer := some (now + cfg.HEARTBEAT_TIMEOUT_MS) }, [])
    ∧ (handleMessage cfg now (MessageData.malformed raw) c).1.state = c.state
    ∧ (handleMessage cfg now (MessageData.malformed raw) c).2 = [] :=
  ⟨rfl, rfl, rfl⟩

/-- C10: disconnect leaves the reconnect-attempt counter, the last error
and the last-event time unchanged, so getStatus afterwards reports the
same attempt count, error message and last-event time as before; only
the state and the connect time differ in the snapshot. -/
theorem C10_disconnect_frame (c : Client) :
    (disconnect c).1.reconnectAttempts = c.reconnectAttempts
    ∧ (disconnect c).1.lastError = c.lastError
    ∧ (disconnect c).1.lastEventTime = c.lastEventTime
    ∧ getStatus (disconnect c).1
        = { getStatus c with state := SSEConnectionState.disconnected, connectedAt := none } := by
  simp only [disconnect, clearTimers, clearConnectionTimeout, cleanupEventSource, setState,
    getStatus]
  split_ifs <;> simp_all

/-- C5: disconnect from any state results in state disconnected, cancels
the reconnect, heartbeat and connection timers, clears the connect time,
and a reconnect timer callback firing afterwards is a no-op because the
state is disconnected. -/
theorem C5_disconnect_then_timer_noop (cfg : SSEConfig) (j : ℚ) (now : Nat)
    (moduleLoaded importOk constructOk : Bool) (c : Client) :
    (disconnect c).1.state = SSEConnectionState.disconnected
    ∧ (disconnect c).1.reconnectTimer = none
    ∧ (disconnect c).1.heartbeatTimer = none
    ∧ (disconnect c).1.connectionTimer = none
    ∧ (disconnect c).1.connectedAt = none
    ∧ fireReconnectTimer cfg j now moduleLoaded importOk constructOk (disconnect c).1
        = { client := (disconnect c).1, events := [], rejected := none } := by
  have hs : (disconnect c).1.state = SSEConnectionState.disconnected := by
    simp only [disconnect, clearTimers, clearConnectionTimeout, cleanupEventSource, setState]
    split_ifs <;> simp_all
  refine ⟨hs, ?_, ?_, ?_, ?_, ?_⟩
  · simp only [disconnect, clearTimers, clearConnectionTimeout, cleanupEventSource, setState]
    split_ifs <;> simp_all
  · simp only [disconnect, clearTimers, clearConnectionTimeout, cleanupEventSource, setState]
    split_ifs <;> simp_all
  · simp only [disconnect, clearTimers, clearConnectionTimeout, cleanupEventSource, setState]
    split_ifs <;> simp_all
  · rfl
  · simp [fireReconnectTimer, hs]

/-- C6: connect while already connected or connecting changes no field
(in particular builds no new transport) and emits nothing; and setState
emits a connection:state event exactly when the new state differs from
the current one. -/
theorem C6_connect_noop_and_emission_discipline (cfg : SSEConfig) (j : ℚ) (now : Nat)
    (moduleLoaded importOk constructOk : Bool) (c : Client) (s : SSEConnectionState) :
    ((c.state = SSEConnectionState.connected ∨ c.state = SSEConnectionState.connecting) →
      (connect cfg j now moduleLoaded importOk constructOk c).client = c
      ∧ (connect cfg j now moduleLoaded importOk constructOk c).events = [])
    ∧ (c.state = s → setState s c = (c, []))
    ∧ (c.state ≠ s → setState s c = ({ c with state := s }, [Emitted.connectionState s])) := by
  refine ⟨?_, ?_, ?_⟩
  · intro h
    rcases h with h | h <;> cases moduleLoaded <;> cases importOk <;> simp [connect, h]
  · intro h
    simp [setState, h]
  · intro h
    simp [setState, h]

/-- C6 witness: a connect call on a concrete connected client leaves the
client unchanged and emits nothing, setState to the current state emits
nothing, and setState to a different state emits one event. -/
theorem C6_witness :
    (connect cfg0 0 5 true true true c0).client = c0
    ∧ (connect cfg0 0 5 true true true c0).events = []
    ∧ setState SSEConnectionState.connected c0 = (c0, [])
    ∧ setState SSEConnectionState.disconnected c0
        = ({ c0 with state := SSEConnectionState.disconnected },
           [Emitted.connectionState SSEConnectionState.disconnected]) := by
  have h := C6_connect_noop_and_emission_discipline cfg0 0 5 true true true c0
    SSEConnectionState.connected
  have h2 := C6_connect_noop_and_emission_discipline cfg0 0 5 true true true c0
    SSEConnectionState.disconnected
  exact ⟨(h.1 (Or.inl rfl)).1, (h.1 (Or.inl rfl)).2, h.2.1 rfl, h2.2.2 (by decide)⟩

/-- C4: the emitted session event is determined solely by the
notification's state field (the container-level type argument is
ignored): playing, paused, stopped map to their events, buffering maps
to session:playing, any other state emits nothing; and a wrapped
container payload emits one event per notification in array order. -/
theorem C4_state_determines_event (n : PlexPlaySessionNotification) (t u : String)
    (cfg : SSEConfig) (now : Nat) (c : Client) (ty : String) (f : PSSNField) :
    handlePlaySessionNotification n t = handlePlaySessionNotification n u
    ∧ (n.state = "playing" → handlePlaySessionNotification n t = [Emitted.sessionPlaying n])
    ∧ (n.state = "paused" → handlePlaySessionNotification n t = [Emitted.sessionPaused n])
    ∧ (n.state = "stopped" → handlePlaySessionNotification n t = [Emitted.sessionStopped n])
    ∧ (n.state = "buffering" → handlePlaySessionNotification n t = [Emitted.sessionPlaying n])
    ∧ (n.state ≠ "playing" → n.state ≠ "paused" → n.state ≠ "stopped" →
        n.state ≠ "buffering" → handlePlaySessionNotification n t = [])
    ∧ (handleMessage cfg now (MessageData.parsed
          { PlaySessionStateNotification := none
            NotificationContainer :=
              some { type := ty, PlaySessionStateNotification := some f } }) c).2
        = (PSSNField.toList f).flatMap (fun m => handlePlaySessionNotification m ty) := by
  refine ⟨rfl, ?_, ?_, ?_, ?_, ?_, rfl⟩
  · intro h; simp [handlePlaySessionNotification, h]
  · intro h; simp [handlePlaySessionNotification, h]
  · intro h; simp [handlePlaySessionNotification, h]
  · intro h; simp [handlePlaySessionNotification, h]
  · intro h1 h2 h3 h4; simp [handlePlaySessionNotification, h1, h2, h3, h4]

/-- C4 witness: a wrapped container holding three notifications with
states playing, paused, stopped yields exactly session:playing,
session:paused, session:stopped in that order. -/
theorem C4_witness :
    (handleMessage cfg0 7 (MessageData.parsed
        { PlaySessionStateNotification := none
          NotificationContainer :=
            some { type := "playing"
                   PlaySessionStateNotification :=
                     some (PSSNField.many
                       [{ sessionKey := "1", state := "playing" },
                        { sessionKey := "2", state := "paused" },
                        { sessionKey := "3", state := "stopped" }]) } }) c0).2
      = [Emitted.sessionPlaying { sessionKey := "1", state := "playing" },
         Emitted.sessionPaused { sessionKey := "2", state := "paused" },
         Emitted.sessionStopped { sessionKey := "3", state := "stopped" }] := by
  have h := C4_state_determines_event { sessionKey := "1", state := "playing" } "playing"
    "playing" cfg0 7 c0 "playing"
    (PSSNField.many
      [{ sessionKey := "1", state := "playing" },
       { sessionKey := "2", state := "paused" },
       { sessionKey := "3", state := "stopped" }])
  rw [h.2.2.2.2.2.2]
  decide

/-- Keepalives that always arrive before the standing heartbeat deadline
never fire the heartbeat timer: the run emits nothing and only the
heartbeat deadline changes. -/
theorem runPings_no_fire (cfg : SSEConfig) (j : ℚ) :
    ∀ (pings : List Nat) (c : Client) (d : Nat),
      c.heartbeatTimer = some d →
      gapsOk cfg.HEARTBEAT_TIMEOUT_MS d pings = true →
      runPings cfg j pings c
        = ({ c with
              heartbeatTimer := some (finalDeadline cfg.HEARTBEAT_TIMEOUT_MS d pings) },
           []) := by
  intro pings
  induction pings with
  | nil =>
    intro c d hd _
    cases c
    simp_all [runPings, finalDeadline]
  | cons t rest ih =>
    intro c d hd hg
    simp only [gapsOk, Bool.and_eq_true, decide_eq_true_eq] at hg
    obtain ⟨hlt, hrest⟩ := hg
    have hnotle : ¬ d ≤ t := not_le.mpr hlt
    simp only [runPings, hd, if_neg hnotle, pingStep, resetHeartbeatMonitor]
    rw [ih _ (t + cfg.HEARTBEAT_TIMEOUT_MS) rfl hrest]
    simp [finalDeadline]

/-- C8: a sequence of keepalive pings each arriving before the standing
heartbeat deadline never enters the error path (nothing is emitted and
no field but the heartbeat deadline changes); each ping re-arms the
heartbeat monitor for HEARTBEAT_TIMEOUT_MS after its arrival; and a
heartbeat timer firing while the state is not disconnected is handled
identically to a transport error. -/
theorem C8_timely_pings_never_error (cfg : SSEConfig) (j : ℚ) (pings : List Nat)
    (c : Client) (d : Nat)
    (hd : c.heartbeatTimer = some d)
    (hg : gapsOk cfg.HEARTBEAT_TIMEOUT_MS d pings = true) :
    (runPings cfg j pings c).2 = []
    ∧ (runPings cfg j pings c).1
        = { c with
              heartbeatTimer := some (finalDeadline cfg.HEARTBEAT_TIMEOUT_MS d pings) }
    ∧ (∀ (t : Nat) (x : Client),
        pingStep cfg t x = { x with heartbeatTimer := some (t + cfg.HEARTBEAT_TIMEOUT_MS) })
    ∧ (∀ (k : ℚ) (x : Client), x.state ≠ SSEConnectionState.disconnected →
        fireHeartbeatTimer cfg k x
          = handleError cfg k (ErrValue.jsError "Heartbeat timeout") x) := by
  have h := runPings_no_fire cfg j pings c d hd hg
  refine ⟨by rw [h], by rw [h], fun t x => rfl, fun k x hx => ?_⟩
  simp [fireHeartbeatTimer, hx]

/-- C8 witness: three pings at 10000, 20000 and 40000 against a 30000ms
heartbeat window, starting from a deadline of 30000, emit nothing and
leave the client connected with the deadline re-armed to 70000. -/
theorem C8_witness :
    (runPings cfg0 0 [10000, 20000, 40000] { c0 with heartbeatTimer := some 30000 }).2 = []
    ∧ (runPings cfg0 0 [10000, 20000, 40000] { c0 with heartbeatTimer := some 30000 }).1
        = { c0 with heartbeatTimer := some 70000 } := by
  have h := C8_timely_pings_never_error cfg0 0 [10000, 20000, 40000]
    { c0 with heartbeatTimer := some 30000 } 30000 rfl (by decide)
  exact ⟨h.1, h.2.1.trans rfl⟩

/-- The first component of handleMessage never depends on the payload:
every arm records the event time and re-arms the heartbeat. -/
theorem handleMessage_fst (cfg : SSEConfig) (now : Nat) (msg : MessageData) (c : Client) :
    (handleMessage cfg now msg c).1
      = { c with lastEventTime := some now,
                 heartbeatTimer := some (now + cfg.HEARTBEAT_TIMEOUT_MS) } := by
  cases msg with
  | empty => rfl
  | malformed raw => rfl
  | parsed d =>
    rcases d with ⟨pn, nc⟩
    rcases nc with _ | ⟨ty, pf⟩
    · rcases pn with _ | n <;> rfl
    · rcases pf with _ | f <;> rcases pn with _ | n <;> rfl

/-- fireOnOpen on a connecting client: transition to connected, record
the connect time, reset the attempt counter and last error, clear the
connection timer and arm the heartbeat monitor. -/
theorem fireOnOpen_connecting (cfg : SSEConfig) (now : Nat) (c : Client)
    (h : c.state = SSEConnectionState.connecting) :
    fireOnOpen cfg now c
      = ({ c with state := SSEConnectionState.connected,
                  connectionTimer := none,
                  connectedAt := some now,
                  reconnectAttempts := 0,
                  lastError := none,
                  heartbeatTimer := some (now + cfg.HEARTBEAT_TIMEOUT_MS) },
         [Emitted.connectionState SSEConnectionState.connected]) := by
  simp [fireOnOpen, clearConnectionTimeout, setState, startHeartbeatMonitor,
    resetHeartbeatMonitor, h]

/-- C9: the reconnect-attempt counter survives disconnect, message
handling, and stale opens; scheduleReconnect only ever increments it (or
leaves it at the cap); an open while connecting resets it to zero; and
the error following a successful connected transition schedules the
reconnect timer with the attempt-1 (initial) delay. -/
theorem C9_attempts_reset_only_on_open (cfg : SSEConfig) (j : ℚ) (now : Nat)
    (e : ErrValue) (msg : MessageData) (c : Client) :
    (disconnect c).1.reconnectAttempts = c.reconnectAttempts
    ∧ (scheduleReconnect cfg j c).1.reconnectAttempts
        = (if cfg.MAX_RETRIES ≤ c.reconnectAttempts then c.reconnectAttempts
           else c.reconnectAttempts + 1)
    ∧ (handleMessage cfg now msg c).1.reconnectAttempts = c.reconnectAttempts
    ∧ (c.state ≠ SSEConnectionState.connecting →
        (fireOnOpen cfg now c).1.reconnectAttempts = c.reconnectAttempts)
    ∧ (c.state = SSEConnectionState.connecting →
        (fireOnOpen cfg now c).1.reconnectAttempts = 0)
    ∧ (c.state = SSEConnectionState.connecting → 0 < cfg.MAX_RETRIES →
        (handleError cfg j e (fireOnOpen cfg now c).1).1.reconnectTimer
          = some (fullDelay cfg j 1)) := by
  refine ⟨?_, ?_, ?_, ?_, ?_, ?_⟩
  · simp only [disconnect, clearTimers, clearConnectionTimeout, cleanupEventSource, setState]
    split_ifs <;> simp_all
  · simp only [scheduleReconnect, setState, ge_iff_le]
    split_ifs <;> simp_all
  · rw [handleMessage_fst]
  · intro h
    simp [fireOnOpen, h]
  · intro h
    rw [fireOnOpen_connecting cfg now c h]
  · intro h hM
    rw [fireOnOpen_connecting cfg now c h]
    have hnot : ¬ (0 ≥ cfg.MAX_RETRIES) := by omega
    simp only [handleError, clearTimers, clearConnectionTimeout, cleanupEventSource,
      scheduleReconnect, setState]
    split_ifs <;> simp_all

/-- C9 witness: an open received while connecting zeroes the counter, a
following error schedules the attempt-1 delay, a stale open and a
disconnect leave the counter alone. -/
theorem C9_witness :
    (fireOnOpen cfg0 11
        { c0 with state := SSEConnectionState.connecting, reconnectAttempts := 2 }).1.reconnectAttempts = 0
    ∧ (handleError cfg0 5 ErrValue.other
        (fireOnOpen cfg0 11
          { c0 with state := SSEConnectionState.connecting,
                    reconnectAttempts := 2 }).1).1.reconnectTimer
        = some (fullDelay cfg0 5 1)
    ∧ (fireOnOpen cfg0 11 { c0 with reconnectAttempts := 2 }).1.reconnectAttempts = 2
    ∧ (disconnect { c0 with reconnectAttempts := 2 }).1.reconnectAttempts = 2 := by
  have h := C9_attempts_reset_only_on_open cfg0 5 11 ErrValue.other MessageData.empty
    { c0 with state := SSEConnectionState.connecting, reconnectAttempts := 2 }
  have h2 := C9_attempts_reset_only_on_open cfg0 5 11 ErrValue.other MessageData.empty
    { c0 with reconnectAttempts := 2 }
  exact ⟨h.2.2.2.2.1 rfl, h.2.2.2.2.2 rfl (by decide), h2.2.2.2.1 (by decide), h2.1⟩

/-- handleError strictly below the retry cap: increment the counter,
move to reconnecting, schedule the jittered delay of the incremented
attempt count. -/
theorem handleError_below_cap (cfg : SSEConfig) (j : ℚ) (e : ErrValue) (c : Client)
    (h : c.reconnectAttempts < cfg.MAX_RETRIES) :
    (handleError cfg j e c).1.reconnectAttempts = c.reconnectAttempts + 1
    ∧ (handleError cfg j e c).1.state = SSEConnectionState.reconnecting
    ∧ (handleError cfg j e c).1.reconnectTimer
        = some (fullDelay cfg j (c.reconnectAttempts + 1)) := by
  have hnot : ¬ (c.reconnectAttempts ≥ cfg.MAX_RETRIES) := not_le.mpr h
  simp only [handleError, clearTimers, clearConnectionTimeout, cleanupEventSource,
    scheduleReconnect, setState]
  split_ifs <;> simp_all

/-- handleError at or above the retry cap: the counter stays, the state
becomes fallback, and no reconnect timer is scheduled. -/
theorem handleError_at_cap (cfg : SSEConfig) (j : ℚ) (e : ErrValue) (c : Client)
    (h : cfg.MAX_RETRIES ≤ c.reconnectAttempts) :
    (handleError cfg j e c).1.reconnectAttempts = c.reconnectAttempts
    ∧ (handleError cfg j e c).1.state = SSEConnectionState.fallback
    ∧ (handleError cfg j e c).1.reconnectTimer = none := by
  simp only [handleError, clearTimers, clearConnectionTimeout, cleanupEventSource,
    scheduleReconnect, setState]
  split_ifs <;> simp_all

/-- The error path always leaves the client reconnecting or in fallback. -/
theorem handleError_state (cfg : SSEConfig) (j : ℚ) (e : ErrValue) (c : Client) :
    (handleError cfg j e c).1.state = SSEConnectionState.reconnecting
    ∨ (handleError cfg j e c).1.state = SSEConnectionState.fallback := by
  by_cases hcap : c.reconnectAttempts < cfg.MAX_RETRIES
  · exact Or.inl (handleError_below_cap cfg j e c hcap).2.1
  · exact Or.inr (handleError_at_cap cfg j e c (by omega)).2.1

/-- While the running total stays within the cap, each error-path
invocation increments the counter by one, and any invocation after the
first leaves the client reconnecting with the jittered delay of the
current attempt count scheduled. -/
theorem errorSteps_progress (cfg : SSEConfig) (j : ℚ) (e : ErrValue) :
    ∀ (k : Nat) (c : Client), c.reconnectAttempts + k ≤ cfg.MAX_RETRIES →
      (errorSteps cfg j e k c).1.reconnectAttempts = c.reconnectAttempts + k
      ∧ (1 ≤ k →
          (errorSteps cfg j e k c).1.state = SSEConnectionState.reconnecting
          ∧ (errorSteps cfg j e k c).1.reconnectTimer
              = some (fullDelay cfg j (c.reconnectAttempts + k))) := by
  intro k
  induction k with
  | zero =>
    intro c _
    exact ⟨rfl, fun h1 => absurd h1 (by omega)⟩
  | succ k ih =>
    intro c h
    have hk : c.reconnectAttempts + k ≤ cfg.MAX_RETRIES := by omega
    have ha := (ih c hk).1
    have hlt : (errorSteps cfg j e k c).1.reconnectAttempts < cfg.MAX_RETRIES := by omega
    have hh := handleError_below_cap cfg j e (errorSteps cfg j e k c).1 hlt
    refine ⟨?_, fun _ => ⟨?_, ?_⟩⟩
    · have h1 : (errorSteps cfg j e (k + 1) c).1.reconnectAttempts
          = (errorSteps cfg j e k c).1.reconnectAttempts + 1 := hh.1
      omega
    · exact hh.2.1
    · have h2 : (errorSteps cfg j e (k + 1) c).1.reconnectTimer
          = some (fullDelay cfg j ((errorSteps cfg j e k c).1.reconnectAttempts + 1)) := hh.2.2
      rw [h2, ha, Nat.add_assoc]

/-- C1 is false on the code: scheduleReconnect tests the counter before
incrementing it, so with MAX_RETRIES = 3, after exactly 3 consecutive
error-path invocations from a fresh client the state is reconnecting,
not fallback, and a further reconnect timer IS scheduled. -/
theorem C1_counterexample :
    cfg0.MAX_RETRIES = 3
    ∧ c0.reconnectAttempts = 0
    ∧ (errorSteps cfg0 0 ErrValue.other 3 c0).1.state = SSEConnectionState.reconnecting
    ∧ (errorSteps cfg0 0 ErrValue.other 3 c0).1.reconnectTimer = some 4000 := by
  have h := errorSteps_progress cfg0 0 ErrValue.other 3 c0 (by decide)
  refine ⟨rfl, rfl, (h.2 (by decide)).1, ?_⟩
  rw [(h.2 (by decide)).2]
  norm_num [fullDelay, baseDelay, cfg0, c0]

/-- C1 amended: fallback is reached after MAX_RETRIES + 1 (not
MAX_RETRIES) consecutive error-path invocations with no intervening
connected transition; after each of the first MAX_RETRIES invocations
the state is reconnecting and a reconnect timer is scheduled — so the
number of scheduled reconnect attempts before reaching fallback equals
MAX_RETRIES — and the final invocation moves to fallback, schedules no
timer, and leaves the counter at MAX_RETRIES. -/
theorem C1_amended_fallback_needs_retries_plus_one (cfg : SSEConfig) (j : ℚ) (e : ErrValue)
    (c : Client) (h0 : c.reconnectAttempts = 0) :
    ((errorSteps cfg j e (cfg.MAX_RETRIES + 1) c).1.state = SSEConnectionState.fallback
      ∧ (errorSteps cfg j e (cfg.MAX_RETRIES + 1) c).1.reconnectTimer = none
      ∧ (errorSteps cfg j e (cfg.MAX_RETRIES + 1) c).1.reconnectAttempts = cfg.MAX_RETRIES)
    ∧ (∀ k, 1 ≤ k → k ≤ cfg.MAX_RETRIES →
        (errorSteps cfg j e k c).1.state = SSEConnectionState.reconnecting
        ∧ (errorSteps cfg j e k c).1.reconnectTimer ≠ none) := by
  have hM := errorSteps_progress cfg j e cfg.MAX_RETRIES c (by omega)
  have hatt : (errorSteps cfg j e cfg.MAX_RETRIES c).1.reconnectAttempts = cfg.MAX_RETRIES := by
    have := hM.1
    omega
  have hge : cfg.MAX_RETRIES ≤ (errorSteps cfg j e cfg.MAX_RETRIES c).1.reconnectAttempts := by
    omega
  have hh := handleError_at_cap cfg j e (errorSteps cfg j e cfg.MAX_RETRIES c).1 hge
  refine ⟨⟨hh.2.1, hh.2.2, ?_⟩, ?_⟩
  · have h1 : (errorSteps cfg j e (cfg.MAX_RETRIES + 1) c).1.reconnectAttempts
        = (errorSteps cfg j e cfg.MAX_RETRIES c).1.reconnectAttempts := hh.1
    omega
  · intro k hk1 hk2
    have h2 := errorSteps_progress cfg j e k c (by omega)
    refine ⟨(h2.2 hk1).1, ?_⟩
    rw [(h2.2 hk1).2]
    simp

/-- C1 witness: with MAX_RETRIES = 3, the 4th consecutive error-path
invocation reaches fallback with no timer scheduled, while the 2nd
leaves the client reconnecting. -/
theorem C1_witness :
    (errorSteps cfg0 0 ErrValue.other 4 c0).1.state = SSEConnectionState.fallback
    ∧ (errorSteps cfg0 0 ErrValue.other 4 c0).1.reconnectTimer = none
    ∧ (errorSteps cfg0 0 ErrValue.other 2 c0).1.state = SSEConnectionState.reconnecting := by
  have h := C1_amended_fallback_needs_retries_plus_one cfg0 0 ErrValue.other c0 rfl
  exact ⟨h.1.1, h.1.2.1, (h.2 2 (by decide) (by decide)).1⟩

/-- C2 is false on the code: the lazy dynamic import of the transport
module happens before the try/catch, so when the module is not yet
cached and the import fails, connect returns a rejected promise. -/
theorem C2_counterexample :
    (connect cfg0 0 0 false false true cDisc).rejected ≠ none := by
  decide

/-- C2 amended: provided the transport module is already cached or its
dynamic import succeeds, connect never throws nor rejects; an exception
inside the try block is caught and funneled into the error path: a
connection:error event is emitted and the client ends in reconnecting or
fallback. -/
theorem C2_connect_never_rejects (cfg : SSEConfig) (j : ℚ) (now : Nat)
    (moduleLoaded importOk constructOk : Bool) (c : Client)
    (h : moduleLoaded = true ∨ importOk = true) :
    (connect cfg j now moduleLoaded importOk constructOk c).rejected = none
    ∧ (constructOk = false →
        c.state ≠ SSEConnectionState.connected →
        c.state ≠ SSEConnectionState.connecting →
        Emitted.connectionError "construction failed"
            ∈ (connect cfg j now moduleLoaded importOk constructOk c).events
        ∧ ((connect cfg j now moduleLoaded importOk constructOk c).client.state
              = SSEConnectionState.reconnecting
            ∨ (connect cfg j now moduleLoaded importOk constructOk c).client.state
              = SSEConnectionState.fallback)) := by
  have h1 : ¬ (moduleLoaded = false ∧ importOk = false) := by
    rcases h with h | h <;> simp [h]
  constructor
  · simp only [connect, if_neg h1]
    split_ifs <;> rfl
  · intro hco hc1 hc2
    have h2 : ¬ (c.state = SSEConnectionState.connected
        ∨ c.state = SSEConnectionState.connecting) := by
      simp [hc1, hc2]
    subst hco
    simp only [connect, if_neg h1, if_neg h2, if_neg Bool.false_ne_true]
    constructor
    · simp [handleError, errorMessage]
    · exact handleError_state cfg j (ErrValue.jsError "construction failed") _

/-- C2 witness: a failing transport construction on a disconnected
client with the module cached settles (no rejection), emits a
connection:error, and leaves the client reconnecting or in fallback. -/
theorem C2_witness :
    (connect cfg0 0 0 true true false cDisc).rejected = none
    ∧ Emitted.connectionError "construction failed"
        ∈ (connect cfg0 0 0 true true false cDisc).events
    ∧ ((connect cfg0 0 0 true true false cDisc).client.state
          = SSEConnectionState.reconnecting
        ∨ (connect cfg0 0 0 true true false cDisc).client.state
          = SSEConnectionState.fallback) := by
  have h := C2_connect_never_rejects cfg0 0 0 true true false cDisc (Or.inl rfl)
  exact ⟨h.1, (h.2 rfl (by decide) (by decide)).1, (h.2 rfl (by decide) (by decide)).2⟩

/-- A reconnect scheduled strictly below the cap stores the jittered
delay of the incremented attempt count. -/
theorem scheduleReconnect_timer (cfg : SSEConfig) (j : ℚ) (c : Client)
    (h : c.reconnectAttempts < cfg.MAX_RETRIES) :
    (scheduleReconnect cfg j c).1.reconnectTimer
        = some (fullDelay cfg j (c.reconnectAttempts + 1))
    ∧ (scheduleReconnect cfg j c).1.reconnectAttempts = c.reconnectAttempts + 1 := by
  have hnot : ¬ (c.reconnectAttempts ≥ cfg.MAX_RETRIES) := not_le.mpr h
  simp only [scheduleReconnect, setState, if_neg hnot]
  split_ifs <;> simp_all

/-- C3 is false on the code: the scheduled delay includes the fresh
jitter drawn for each invocation, so it is not monotone in the attempt
count; once the backoff is capped, attempt 10 drawn with jitter 999 is
scheduled strictly later than attempt 11 drawn with jitter 0. -/
theorem C3_counterexample :
    ((0:ℚ) ≤ 999 ∧ (999:ℚ) < 1000 ∧ (0:ℚ) ≤ 0 ∧ (0:ℚ) < 1000)
    ∧ (scheduleReconnect cfg1 999 { c0 with reconnectAttempts := 9 }).1.reconnectAttempts = 10
    ∧ (scheduleReconnect cfg1 0 { c0 with reconnectAttempts := 10 }).1.reconnectAttempts = 11
    ∧ (scheduleReconnect cfg1 999 { c0 with reconnectAttempts := 9 }).1.reconnectTimer
        = some 30999
    ∧ (scheduleReconnect cfg1 0 { c0 with reconnectAttempts := 10 }).1.reconnectTimer
        = some 30000
    ∧ ¬ ((30999:ℚ) ≤ 30000) := by
  have h9 := scheduleReconnect_timer cfg1 999 { c0 with reconnectAttempts := 9 } (by decide)
  have h10 := scheduleReconnect_timer cfg1 0 { c0 with reconnectAttempts := 10 } (by decide)
  refine ⟨by norm_num, h9.2.trans rfl, h10.2.trans rfl, ?_, ?_, by norm_num⟩
  · rw [h9.1]
    norm_num [fullDelay, baseDelay, cfg1, min_def]
  · rw [h10.1]
    norm_num [fullDelay, baseDelay, cfg1, min_def]

/-- C3 amended: the delay scheduled for an attempt equals
min(INITIAL_RETRY_DELAY_MS * RETRY_MULTIPLIER ^ (attempt - 1),
MAX_RETRY_DELAY_MS) plus the jitter of that draw; the pre-jitter base
delay is monotonically non-decreasing in the attempt count (for a
multiplier at least 1 and a non-negative initial delay) and never
exceeds MAX_RETRY_DELAY_MS; and every scheduled delay is strictly below
MAX_RETRY_DELAY_MS + 1000ms for jitter in [0, 1000).  The jittered
delay itself is not monotone across attempts. -/
theorem C3_delay_formula_and_bounds (cfg : SSEConfig) (j : ℚ) (c : Client) (n : Nat)
    (hcap : c.reconnectAttempts < cfg.MAX_RETRIES) :
    (scheduleReconnect cfg j c).1.reconnectTimer
        = some (min (cfg.INITIAL_RETRY_DELAY_MS
                      * cfg.RETRY_MULTIPLIER ^ c.reconnectAttempts)
                  cfg.MAX_RETRY_DELAY_MS + j)
    ∧ (0 ≤ cfg.INITIAL_RETRY_DELAY_MS → 1 ≤ cfg.RETRY_MULTIPLIER →
        baseDelay cfg n ≤ baseDelay cfg (n + 1))
    ∧ baseDelay cfg n ≤ cfg.MAX_RETRY_DELAY_MS
    ∧ (0 ≤ j → j < 1000 → fullDelay cfg j n < cfg.MAX_RETRY_DELAY_MS + 1000) := by
  refine ⟨?_, ?_, min_le_right _ _, ?_⟩
  · have hnot : ¬ (c.reconnectAttempts ≥ cfg.MAX_RETRIES) := not_le.mpr hcap
    simp only [scheduleReconnect, setState, if_neg hnot, fullDelay, baseDelay]
    split_ifs <;> simp_all
  · intro hI hR
    refine min_le_min (mul_le_mul_of_nonneg_left (pow_le_pow_right₀ hR (by omega)) hI) le_rfl
  · intro hj0 hj1
    have hb : baseDelay cfg n ≤ cfg.MAX_RETRY_DELAY_MS := min_le_right _ _
    calc fullDelay cfg j n = baseDelay cfg n + j := rfl
      _ < cfg.MAX_RETRY_DELAY_MS + 1000 := add_lt_add_of_le_of_lt hb hj1

/-- C3 witness: with the concrete configuration, the first scheduled
delay matches the formula, the base delay grows from attempt 2 to 3 and
stays within the cap, and the jittered delay stays below cap + 1000. -/
theorem C3_witness :
    (scheduleReconnect cfg0 500 c0).1.reconnectTimer
        = some (min (cfg0.INITIAL_RETRY_DELAY_MS
                      * cfg0.RETRY_MULTIPLIER ^ c0.reconnectAttempts)
                  cfg0.MAX_RETRY_DELAY_MS + 500)
    ∧ baseDelay cfg0 2 ≤ baseDelay cfg0 3
    ∧ baseDelay cfg0 2 ≤ cfg0.MAX_RETRY_DELAY_MS
    ∧ fullDelay cfg0 500 2 < cfg0.MAX_RETRY_DELAY_MS + 1000 := by
  have h := C3_delay_formula_and_bounds cfg0 500 c0 2 (by decide)
  exact ⟨h.1, h.2.1 (by decide) (by decide), h.2.2.1, h.2.2.2 (by decide) (by decide)⟩

end Tracearr
